import Mathlib

/-!
Verification of the conversational retrieval orchestration core of the
LAWONTIP application (`src/app.py`, class `LAWONTIPApp`).

The embedding models:
* the bounded conversation memory (`ConversationBufferWindowMemory(k=2,
  return_messages=True)` configured in `_initialize_session_state`),
* the two prompt templates (`_get_prompt_template`,
  `_get_scenario_prompt_template`) and mode-dependent selection
  (the `input_type` branch in `render_chat_page`),
* the per-turn orchestration of `render_chat_page`: appending the user
  message to the displayed transcript, assigning the selected template onto
  the shared chain, invoking the `ConversationalRetrievalChain`
  (question condensation, retrieval, prompt binding, generation, and the
  chain saving the exchange to memory on success), and the
  `try/except` that converts any failure into a fixed apology answer while
  rendering the error through `st.error`,
* `reset_conversation`, which empties the transcript and clears memory.

External collaborators (the condense/retrieve/generate calls, which in the
source are network-bound langchain components) are modelled as explicit
function-valued parameters that either return a value or fail with an
error kind.
-/

set_option autoImplicit false
set_option maxRecDepth 8192

namespace Lawontip

/-- A displayed chat transcript entry, one element of
`st.session_state.messages` (a dict `{"role": ..., "content": ...}`). -/
structure Message where
  role : String
  content : String
deriving Repr, DecidableEq

/-- A message stored in the langchain conversation memory:
`HumanMessage` or `AIMessage` in `chat_memory.messages`. -/
inductive ChatMessage where
  | human (content : String)
  | ai (content : String)
deriving Repr, DecidableEq

/-- The langchain `ConversationBufferWindowMemory`: a window size `k` and the
underlying `chat_memory.messages` buffer.  The source configures it with
`k=2, memory_key="chat_history", return_messages=True`
(`_initialize_session_state`, src/app.py lines 696-705). -/
structure ConversationBufferWindowMemory where
  k : Nat
  messages : List ChatMessage
deriving Repr, DecidableEq

namespace ConversationBufferWindowMemory

/-- The memory view fed into a chain:
`load_memory_variables` returns `chat_memory.messages[-2*k:]` when `k > 0`
and `[]` otherwise (langchain `ConversationBufferWindowMemory.buffer`). -/
def loadMemoryVariables (m : ConversationBufferWindowMemory) : List ChatMessage :=
  if m.k > 0 then m.messages.drop (m.messages.length - 2 * m.k) else []

/-- The langchain `save_context({"question": q}, {"answer": a})`: appends the
human turn and the AI turn to the underlying buffer. -/
def saveContext (m : ConversationBufferWindowMemory) (question answer : String) :
    ConversationBufferWindowMemory :=
  { m with messages := m.messages ++ [.human question, .ai answer] }

/-- The langchain `clear()`: resets the underlying buffer to empty. -/
def clear (m : ConversationBufferWindowMemory) : ConversationBufferWindowMemory :=
  { m with messages := [] }

end ConversationBufferWindowMemory

/-- The memory created in `_initialize_session_state`: window `k = 2`,
empty buffer. -/
def initialMemory : ConversationBufferWindowMemory :=
  { k := 2, messages := [] }

/-- One completed exchange: the user utterance paired with the assistant
answer, as saved by one successful `save_context` call. -/
abbrev Exchange := String × String

/-- Append a sequence of completed exchanges to a memory, one
`save_context` per exchange. -/
def appendExchanges (m : ConversationBufferWindowMemory) (exs : List Exchange) :
    ConversationBufferWindowMemory :=
  exs.foldl (fun acc e => acc.saveContext e.1 e.2) m

/-- The buffer contents contributed by a sequence of exchanges: each
exchange contributes its human turn followed by its AI turn. -/
def exchangeMessages (exs : List Exchange) : List ChatMessage :=
  exs.flatMap (fun e => [.human e.1, .ai e.2])

theorem exchangeMessages_nil : exchangeMessages [] = [] := rfl

theorem exchangeMessages_cons (e : Exchange) (exs : List Exchange) :
    exchangeMessages (e :: exs) =
      ChatMessage.human e.1 :: ChatMessage.ai e.2 :: exchangeMessages exs := rfl

theorem exchangeMessages_length (exs : List Exchange) :
    (exchangeMessages exs).length = 2 * exs.length := by
  induction exs with
  | nil => rfl
  | cons e rest ih =>
      simp [exchangeMessages_cons, ih]
      omega

theorem appendExchanges_messages (exs : List Exchange)
    (m : ConversationBufferWindowMemory) :
    (appendExchanges m exs).messages = m.messages ++ exchangeMessages exs := by
  induction exs generalizing m with
  | nil => simp [appendExchanges, exchangeMessages]
  | cons e rest ih =>
      simp [appendExchanges] at ih ⊢
      rw [ih, exchangeMessages_cons]
      simp [ConversationBufferWindowMemory.saveContext]

theorem appendExchanges_k (exs : List Exchange)
    (m : ConversationBufferWindowMemory) :
    (appendExchanges m exs).k = m.k := by
  induction exs generalizing m with
  | nil => rfl
  | cons e rest ih =>
      simp [appendExchanges] at ih ⊢
      rw [ih]
      rfl

theorem exchangeMessages_drop (exs : List Exchange) (n : Nat) :
    (exchangeMessages exs).drop (2 * n) = exchangeMessages (exs.drop n) := by
  induction exs generalizing n with
  | nil => simp [exchangeMessages]
  | cons e rest ih =>
      cases n with
      | zero => simp
      | succ n =>
          rw [exchangeMessages_cons]
          have h2 : 2 * (n + 1) = (2 * n) + 1 + 1 := by omega
          rw [h2]
          simp [ih]

/-- One piece of a prompt template text: either literal text or a named
placeholder (written `{name}` in the Python source). -/
inductive Seg where
  | lit (s : String)
  | var (v : String)
deriving Repr, DecidableEq

/-- A langchain `PromptTemplate`: the template text (kept as its literal and
placeholder segments) together with its declared `input_variables`. -/
structure PromptTemplate where
  segments : List Seg
  inputVariables : List String
deriving Repr, DecidableEq

/-- The instruction text of `_get_prompt_template`, up to and including the
`CONTEXT: ` label (src/app.py lines 805-811). -/
def qaInstructions : String :=
  "\n        As a legal chatbot specializing in Indian law, provide accurate and concise information based on the user\x27s questions. \n        Focus on relevant context from the knowledge base while avoiding unnecessary details. Your responses should be brief, \n        professional, and contextually relevant. If a question falls outside the given context, rely on your knowledge base \n        to generate an appropriate response. Prioritize the user\x27s query and deliver precise information pertaining to Indian legal system.\n        \n        CONTEXT: "

/-- The instruction text of `_get_scenario_prompt_template`, up to and
including the `CONTEXT: ` label (src/app.py lines 820-826). -/
def scenarioInstructions : String :=
  "\n        You are a legal expert chatbot specializing in Indian law. When a user describes a scenario, analyze it, \n        identify the relevant legal issue, and provide the most applicable law, section, or rule from the Indian legal context. \n        Use the provided context from the knowledge base to support your answer. If the scenario involves exceptions \n        (such as self-defense), explain the relevant law and its application concisely.\n\n        CONTEXT: "

/-- The `CHAT HISTORY: ` label between the context and history
placeholders, identical in both templates. -/
def chatHistoryLabel : String := "\n        CHAT HISTORY: "

/-- The `QUESTION: ` label before the utterance placeholder of the default
template. -/
def questionLabel : String := "\n        QUESTION: "

/-- The `SCENARIO: ` label before the utterance placeholder of the
scenario template. -/
def scenarioLabel : String := "\n        SCENARIO: "

/-- The trailing `ANSWER:` section closing both templates. -/
def answerLabel : String := "\n        ANSWER:\n        "

/-- The template built by `LAWONTIPApp._get_prompt_template`
(src/app.py lines 803-816): general legal Q&A instructions with
`{context}`, `{chat_history}` and `{question}` placeholders. -/
def get_prompt_template : PromptTemplate :=
  { segments :=
      [ .lit qaInstructions
      , .var "context"
      , .lit chatHistoryLabel
      , .var "chat_history"
      , .lit questionLabel
      , .var "question"
      , .lit answerLabel ]
    inputVariables := ["context", "question", "chat_history"] }

/-- The template built by `LAWONTIPApp._get_scenario_prompt_template`
(src/app.py lines 818-831): scenario-to-statute instructions with the same
three placeholders, the utterance labelled `SCENARIO`. -/
def get_scenario_prompt_template : PromptTemplate :=
  { segments :=
      [ .lit scenarioInstructions
      , .var "context"
      , .lit chatHistoryLabel
      , .var "chat_history"
      , .lit scenarioLabel
      , .var "question"
      , .lit answerLabel ]
    inputVariables := ["context", "question", "chat_history"] }

/-- The kinds of failure a turn can hit, as named by the spec (the source
catches them uniformly as Python exceptions in `render_chat_page`). -/
inductive ErrorKind where
  | RetrievalUnavailable
  | TemplateBindingError
  | GenerationUnavailable
  | GenerationTimeout
deriving Repr, DecidableEq

/-- A raised failure: its kind plus the exception text `str(e)` that the
source interpolates into `st.error(f"Error generating response: {e}")`. -/
structure TurnError where
  kind : ErrorKind
  message : String
deriving Repr, DecidableEq

/-- Render a template by filling each placeholder from the given
substitution; a placeholder with no value is a binding failure
(langchain raises on a missing `input_variable` at format time). -/
def renderSegments (subst : String → Option String) : List Seg → Except TurnError String
  | [] => .ok ""
  | .lit s :: rest => (renderSegments subst rest).map (fun r => s ++ r)
  | .var v :: rest =>
      match subst v with
      | some s => (renderSegments subst rest).map (fun r => s ++ r)
      | none => .error ⟨.TemplateBindingError, "missing value for " ++ v⟩

/-- Bind a prompt template with the three values the chain supplies:
retrieved context, serialized chat history, and the question. -/
def formatTemplate (t : PromptTemplate) (context chatHistory question : String) :
    Except TurnError String :=
  renderSegments
    (fun v =>
      if v = "context" then some context
      else if v = "chat_history" then some chatHistory
      else if v = "question" then some question
      else none)
    t.segments

/-- Serialization of memory messages into the `chat_history` prompt value
(langchain `get_buffer_string` with the default Human/AI prefixes). -/
def getBufferString (ms : List ChatMessage) : String :=
  String.intercalate "\n"
    (ms.map (fun m =>
      match m with
      | .human c => "Human: " ++ c
      | .ai c => "AI: " ++ c))

/-- The interaction mode chosen by the `input_type` radio control in
`render_chat_page`: "Ask a legal question" or "Describe a scenario". -/
inductive Mode where
  | QuestionMode
  | ScenarioMode
deriving Repr, DecidableEq

/-- The mode-dependent template choice performed in `render_chat_page`
(the branch assigning `self.qa.combine_docs_chain.llm_chain.prompt`):
the scenario template for "Describe a scenario", the default otherwise. -/
def selectTemplate : Mode → PromptTemplate
  | .ScenarioMode => get_scenario_prompt_template
  | .QuestionMode => get_prompt_template

/-- The external, network-bound collaborators consumed by one chain
invocation: the question-condensing LLM call, the FAISS retriever
(similarity search, `k = 4`), and the generation LLM call.  Each either
returns a value or fails with a `TurnError`. -/
structure Collaborators where
  condense : String → String → Except TurnError String
  retrieve : String → Except TurnError (List String)
  generate : String → Except TurnError String

/-- One `self.qa.invoke(input=prompt)` call of the
`ConversationalRetrievalChain` built in `_initialize_llm_components`:
load the memory window, condense the question against the history (skipped
when the history is empty), retrieve documents for the condensed question,
bind the combine-docs prompt, generate, and - only after success - save the
original utterance and the answer to memory (langchain runs
`memory.save_context` after `_call` returns).  Returns the answer and the
updated memory, or the first failure. -/
def chainInvoke (c : Collaborators) (tmpl : PromptTemplate)
    (mem : ConversationBufferWindowMemory) (question : String) :
    Except TurnError (String × ConversationBufferWindowMemory) :=
  let history := mem.loadMemoryVariables
  let historyStr := getBufferString history
  match (if history.isEmpty then Except.ok question else c.condense question historyStr) with
  | .error e => .error e
  | .ok newQuestion =>
      match c.retrieve newQuestion with
      | .error e => .error e
      | .ok docs =>
          match formatTemplate tmpl (String.intercalate "\n\n" docs) historyStr newQuestion with
          | .error e => .error e
          | .ok bound =>
              match c.generate bound with
              | .error e => .error e
              | .ok answer => .ok (answer, mem.saveContext question answer)

/-- The fixed apology used as the answer whenever the `try` block of
`render_chat_page` fails. -/
def fallbackAnswer : String :=
  "I apologize, but I encountered an error while processing your request. Please try again."

/-- The per-conversation session state touched by one chat turn: the
displayed transcript `st.session_state.messages`, the conversation memory
`st.session_state.memory`, and the prompt currently installed on the shared
chain object (`self.qa.combine_docs_chain.llm_chain.prompt`). -/
structure ChatState where
  messages : List Message
  memory : ConversationBufferWindowMemory
  qaPrompt : PromptTemplate
deriving Repr, DecidableEq

/-- The outcome of one chat turn: the updated session state, the answer
text displayed and appended as the assistant message (`result["answer"]`),
the `st.error` banner rendered on the page if the turn failed, and the
caught exception kept at the orchestrator boundary. -/
structure TurnOutcome where
  state : ChatState
  answer : String
  errorBanner : Option String
  caughtError : Option TurnError
deriving Repr, DecidableEq

/-- One chat turn of `render_chat_page` (src/app.py lines 893-947), given
the collaborators, the current session state, the selected mode and the
entered prompt: append the user message to the transcript, install the
mode-selected template on the chain, invoke the chain; on success append
the answer to the transcript (the chain saved the exchange to memory), on
any exception render `st.error(f"Error generating response: {e}")`, use the
fixed apology as the answer, and leave memory untouched; finally append the
answer as the assistant transcript message. -/
def processTurn (c : Collaborators) (s : ChatState) (mode : Mode) (prompt : String) :
    TurnOutcome :=
  match chainInvoke c (selectTemplate mode) s.memory prompt with
  | .ok (answer, mem2) =>
      { state :=
          { messages := s.messages ++ [⟨"user", prompt⟩, ⟨"assistant", answer⟩]
            memory := mem2
            qaPrompt := selectTemplate mode }
        answer := answer
        errorBanner := none
        caughtError := none }
  | .error e =>
      { state :=
          { messages := s.messages ++ [⟨"user", prompt⟩, ⟨"assistant", fallbackAnswer⟩]
            memory := s.memory
            qaPrompt := selectTemplate mode }
        answer := fallbackAnswer
        errorBanner := some ("Error generating response: " ++ e.message)
        caughtError := some e }

/-- `LAWONTIPApp.reset_conversation` (src/app.py lines 833-837): empties the
displayed transcript and clears the conversation memory. -/
def reset_conversation (s : ChatState) : ChatState :=
  { s with messages := [], memory := s.memory.clear }

/-- All texts rendered on the user-visible page after a turn: the markdown
body of every transcript message plus the `st.error` banner when present. -/
def userVisibleTexts (o : TurnOutcome) : List String :=
  o.state.messages.map Message.content ++
    (match o.errorBanner with
     | some b => [b]
     | none => [])

/-! Helper lemmas and concrete instances shared by the claim theorems. -/

/-- A successful chain invocation always returns the memory obtained by one
`save_context` of the original utterance and the produced answer. -/
theorem chainInvoke_ok_saveContext (c : Collaborators) (t : PromptTemplate)
    (m : ConversationBufferWindowMemory) (q a : String)
    (m2 : ConversationBufferWindowMemory)
    (h : chainInvoke c t m q = .ok (a, m2)) : m2 = m.saveContext q a := by
  simp only [chainInvoke] at h
  split at h
  · exact absurd h (by simp)
  · split at h
    · exact absurd h (by simp)
    · split at h
      · exact absurd h (by simp)
      · split at h
        · exact absurd h (by simp)
        · simp only [Except.ok.injEq, Prod.mk.injEq] at h
          obtain ⟨h1, h2⟩ := h
          rw [← h2, h1]

/-- Collaborators whose calls all succeed: retrieval returns two documents
and generation returns "Answer A". -/
def okCollaborators : Collaborators :=
  { condense := fun q _ => .ok q
    retrieve := fun _ => .ok ["doc1", "doc2"]
    generate := fun _ => .ok "Answer A" }

/-- Collaborators whose retrieval always fails with `RetrievalUnavailable`
(the index cannot be queried); condensation and generation succeed. -/
def retrievalDownCollaborators : Collaborators :=
  { condense := fun q _ => .ok q
    retrieve := fun _ => .error ⟨.RetrievalUnavailable, "RetrievalUnavailable: could not query index"⟩
    generate := fun _ => .ok "unused" }

/-- A fresh session: empty transcript, the initial `k = 2` memory, the
default template installed on the chain. -/
def emptyChatState : ChatState :=
  { messages := [], memory := initialMemory, qaPrompt := get_prompt_template }

/-- C1: the conversation memory is a bounded FIFO window with k = 2: after
appending more than 2 exchanges, `history()` (the loaded memory view)
equals exactly the last 2 exchanges in their original order, those last
exchanges number exactly 2, and the view never exceeds 2·k = 4 turns
(oldest exchange dropped first). -/
theorem memory_window_bound (exs : List Exchange) (h : 2 < exs.length) :
    (appendExchanges initialMemory exs).loadMemoryVariables
        = exchangeMessages (exs.drop (exs.length - 2)) ∧
    (exs.drop (exs.length - 2)).length = 2 ∧
    (appendExchanges initialMemory exs).loadMemoryVariables.length ≤ 2 * 2 := by
  have hm : (appendExchanges initialMemory exs).messages = exchangeMessages exs := by
    rw [appendExchanges_messages]
    simp [initialMemory]
  have hk : (appendExchanges initialMemory exs).k = 2 := by
    rw [appendExchanges_k]
    rfl
  have hview : (appendExchanges initialMemory exs).loadMemoryVariables
      = exchangeMessages (exs.drop (exs.length - 2)) := by
    unfold ConversationBufferWindowMemory.loadMemoryVariables
    rw [hk, hm]
    simp only [exchangeMessages_length]
    have h2 : 2 * exs.length - 2 * 2 = 2 * (exs.length - 2) := by omega
    rw [h2, exchangeMessages_drop]
    simp
  refine ⟨hview, ?_, ?_⟩
  · simp [List.length_drop]
    omega
  · rw [hview, exchangeMessages_length, List.length_drop]
    omega

/-- Witness for C1: at capacity with [E1, E2], appending E3 leaves the
history window holding exactly [E2, E3]. -/
theorem memory_window_bound_witness :
    2 < ([("u1", "a1"), ("u2", "a2"), ("u3", "a3")] : List Exchange).length ∧
    (appendExchanges initialMemory [("u1", "a1"), ("u2", "a2"), ("u3", "a3")]).loadMemoryVariables
        = exchangeMessages ([("u1", "a1"), ("u2", "a2"), ("u3", "a3")].drop (3 - 2)) ∧
    (appendExchanges initialMemory [("u1", "a1"), ("u2", "a2"), ("u3", "a3")]).loadMemoryVariables
        = [.human "u2", .ai "a2", .human "u3", .ai "a3"] :=
  ⟨by decide,
   (memory_window_bound [("u1", "a1"), ("u2", "a2"), ("u3", "a3")] (by decide)).1,
   by decide⟩

/-- C9: resetting the conversation clears everything: after
`reset_conversation`, the loaded history is empty and so is the displayed
transcript, regardless of the prior state; the operation is total. -/
theorem reset_conversation_empties (s : ChatState) :
    (reset_conversation s).memory.loadMemoryVariables = [] ∧
    (reset_conversation s).messages = [] := by
  constructor
  · simp [reset_conversation, ConversationBufferWindowMemory.clear,
          ConversationBufferWindowMemory.loadMemoryVariables]
  · rfl

/-- C2: whenever the chain invocation fails - retrieval, template binding,
condensation or generation - the turn leaves the conversation memory
exactly as it was before the call. -/
theorem processTurn_memory_unchanged_on_failure (c : Collaborators) (s : ChatState)
    (mode : Mode) (prompt : String) (e : TurnError)
    (h : chainInvoke c (selectTemplate mode) s.memory prompt = .error e) :
    (processTurn c s mode prompt).state.memory = s.memory := by
  simp [processTurn, h]

/-- Witness for C2: with retrieval down, the chain fails and the memory of
a fresh session is untouched by the turn. -/
theorem processTurn_memory_unchanged_on_failure_witness :
    chainInvoke retrievalDownCollaborators (selectTemplate .QuestionMode)
        emptyChatState.memory "hi"
      = .error ⟨.RetrievalUnavailable, "RetrievalUnavailable: could not query index"⟩ ∧
    (processTurn retrievalDownCollaborators emptyChatState .QuestionMode "hi").state.memory
      = emptyChatState.memory :=
  ⟨rfl, processTurn_memory_unchanged_on_failure retrievalDownCollaborators emptyChatState
      .QuestionMode "hi" ⟨.RetrievalUnavailable, "RetrievalUnavailable: could not query index"⟩ rfl⟩

/-- C3: processTurn never raises past the orchestrator boundary (it is a
total function into `TurnOutcome`); on any of the four failure kinds it
returns the single fixed apology string as the answer, and the underlying
caught error - with its kind - stays available at the boundary. -/
theorem processTurn_failure_contained (c : Collaborators) (s : ChatState)
    (mode : Mode) (prompt : String) (e : TurnError)
    (h : chainInvoke c (selectTemplate mode) s.memory prompt = .error e) :
    (processTurn c s mode prompt).answer = fallbackAnswer ∧
    (processTurn c s mode prompt).caughtError = some e := by
  simp [processTurn, h]

/-- Witness for C3: a retrieval failure yields the apology answer and the
caught error carries the `RetrievalUnavailable` kind. -/
theorem processTurn_failure_contained_witness :
    (processTurn retrievalDownCollaborators emptyChatState .ScenarioMode "hi").answer
        = fallbackAnswer ∧
    (processTurn retrievalDownCollaborators emptyChatState .ScenarioMode "hi").caughtError
        = some ⟨.RetrievalUnavailable, "RetrievalUnavailable: could not query index"⟩ :=
  processTurn_failure_contained retrievalDownCollaborators emptyChatState .ScenarioMode "hi"
    ⟨.RetrievalUnavailable, "RetrievalUnavailable: could not query index"⟩ rfl

/-- C4: a successful turn appends exactly one new exchange to memory - the
user turn holding the input utterance verbatim followed by the assistant
turn holding the returned answer - and the turn returns that answer. -/
theorem processTurn_appends_one_exchange (c : Collaborators) (s : ChatState)
    (mode : Mode) (prompt a : String) (m2 : ConversationBufferWindowMemory)
    (h : chainInvoke c (selectTemplate mode) s.memory prompt = .ok (a, m2)) :
    (processTurn c s mode prompt).state.memory.messages
        = s.memory.messages ++ [.human prompt, .ai a] ∧
    (processTurn c s mode prompt).answer = a := by
  have hm := chainInvoke_ok_saveContext c (selectTemplate mode) s.memory prompt a m2 h
  subst hm
  constructor
  · simp [processTurn, h, ConversationBufferWindowMemory.saveContext]
  · simp [processTurn, h]

/-- Witness for C4: on a fresh session with all collaborators succeeding,
the turn appends exactly (hello, Answer A) to memory and returns
"Answer A". -/
theorem processTurn_appends_one_exchange_witness :
    (processTurn okCollaborators emptyChatState .QuestionMode "hello").state.memory.messages
        = emptyChatState.memory.messages ++ [.human "hello", .ai "Answer A"] ∧
    (processTurn okCollaborators emptyChatState .QuestionMode "hello").answer = "Answer A" :=
  processTurn_appends_one_exchange okCollaborators emptyChatState .QuestionMode "hello"
    "Answer A" (initialMemory.saveContext "hello" "Answer A") rfl

/-- C6: when the retrieval index cannot be queried, every retrieval call
fails with `RetrievalUnavailable` and the turn fails terminally, whatever
the generation collaborator would do: the answer is the fixed fallback,
the memory is unchanged, and the reported error kind is
`RetrievalUnavailable`. -/
theorem processTurn_retrieval_unavailable (c : Collaborators) (s : ChatState)
    (mode : Mode) (prompt msg : String)
    (hcond : ∀ q hist, ∃ r, c.condense q hist = .ok r)
    (hret : ∀ q, c.retrieve q = .error ⟨.RetrievalUnavailable, msg⟩) :
    (processTurn c s mode prompt).answer = fallbackAnswer ∧
    (processTurn c s mode prompt).state.memory = s.memory ∧
    (processTurn c s mode prompt).caughtError
        = some ⟨.RetrievalUnavailable, msg⟩ := by
  have hfail : chainInvoke c (selectTemplate mode) s.memory prompt
      = .error ⟨.RetrievalUnavailable, msg⟩ := by
    simp only [chainInvoke]
    by_cases hh : s.memory.loadMemoryVariables.isEmpty
    · simp [hh, hret]
    · obtain ⟨r, hr⟩ := hcond prompt (getBufferString s.memory.loadMemoryVariables)
      simp [hh, hr, hret]
  simp [processTurn, hfail]

/-- Witness for C6: concrete collaborators with retrieval down, applied on
a fresh session. -/
theorem processTurn_retrieval_unavailable_witness :
    (processTurn retrievalDownCollaborators emptyChatState .QuestionMode "query").answer
        = fallbackAnswer ∧
    (processTurn retrievalDownCollaborators emptyChatState .QuestionMode "query").state.memory
        = emptyChatState.memory ∧
    (processTurn retrievalDownCollaborators emptyChatState .QuestionMode "query").caughtError
        = some ⟨.RetrievalUnavailable, "RetrievalUnavailable: could not query index"⟩ :=
  processTurn_retrieval_unavailable retrievalDownCollaborators emptyChatState .QuestionMode
    "query" "RetrievalUnavailable: could not query index"
    (fun q _ => ⟨q, rfl⟩) (fun _ => rfl)

/-- C8: template selection is pure and deterministic: the template a turn
installs and uses is a function of the mode alone - independent of the
collaborators, the session state (including the prompt previously
installed on the shared chain object), and the utterance - so two turns
with equal modes use the structurally identical `PromptTemplate` value
(same segments and same input variables, not merely equal text). -/
theorem selectTemplate_pure_deterministic (c1 c2 : Collaborators) (s1 s2 : ChatState)
    (p1 p2 : String) (m1 m2 : Mode) (h : m1 = m2) :
    (processTurn c1 s1 m1 p1).state.qaPrompt = (processTurn c2 s2 m2 p2).state.qaPrompt ∧
    (processTurn c1 s1 m1 p1).state.qaPrompt = selectTemplate m1 := by
  subst h
  have huse : ∀ (c : Collaborators) (s : ChatState) (p : String),
      (processTurn c s m1 p).state.qaPrompt = selectTemplate m1 := by
    intro c s p
    cases hc : chainInvoke c (selectTemplate m1) s.memory p with
    | ok v => simp [processTurn, hc]
    | error e => simp [processTurn, hc]
  exact ⟨by rw [huse, huse], huse c1 s1 p1⟩

/-- Witness for C8: two turns in QuestionMode with different collaborators,
states and prompts install the identical template. -/
theorem selectTemplate_pure_deterministic_witness :
    (processTurn okCollaborators emptyChatState .QuestionMode "a").state.qaPrompt
        = (processTurn retrievalDownCollaborators
            (reset_conversation emptyChatState) .QuestionMode "b").state.qaPrompt ∧
    (processTurn okCollaborators emptyChatState .QuestionMode "a").state.qaPrompt
        = selectTemplate .QuestionMode :=
  selectTemplate_pure_deterministic okCollaborators retrievalDownCollaborators
    emptyChatState (reset_conversation emptyChatState) "a" "b"
    .QuestionMode .QuestionMode rfl

/-- C10: a failed turn leaves the conversation memory untouched but still
mutates the displayed transcript: the user utterance and the fixed apology
are appended as transcript messages, so the failed exchange stays in
`st.session_state.messages` and is re-rendered by the display loop on
subsequent turns. -/
theorem failed_turn_still_in_transcript (c : Collaborators) (s : ChatState)
    (mode : Mode) (prompt : String) (e : TurnError)
    (h : chainInvoke c (selectTemplate mode) s.memory prompt = .error e) :
    (processTurn c s mode prompt).state.messages
        = s.messages ++ [⟨"user", prompt⟩, ⟨"assistant", fallbackAnswer⟩] ∧
    (processTurn c s mode prompt).state.memory = s.memory := by
  simp [processTurn, h]

/-- Witness for C10: a concrete failed turn appends the utterance and the
apology to the transcript while the memory stays empty. -/
theorem failed_turn_still_in_transcript_witness :
    (processTurn retrievalDownCollaborators emptyChatState .QuestionMode "oops").state.messages
        = emptyChatState.messages ++ [⟨"user", "oops"⟩, ⟨"assistant", fallbackAnswer⟩] ∧
    (processTurn retrievalDownCollaborators emptyChatState .QuestionMode "oops").state.memory
        = emptyChatState.memory :=
  failed_turn_still_in_transcript retrievalDownCollaborators emptyChatState .QuestionMode
    "oops" ⟨.RetrievalUnavailable, "RetrievalUnavailable: could not query index"⟩ rfl

/-- Collaborators whose generation call always fails at the transport
level; condensation and retrieval succeed. -/
def generationDownCollaborators : Collaborators :=
  { condense := fun q _ => .ok q
    retrieve := fun _ => .ok ["doc1"]
    generate := fun _ => .error ⟨.GenerationUnavailable, "GenerationUnavailable: transport failure"⟩ }

/-- C5: mode-dependent template selection actually changes the generation
input: for every identical utterance, serialized memory, and retrieved
context, the prompt bound under ScenarioMode differs from the prompt bound
under QuestionMode. -/
theorem mode_changes_bound_prompt (context chatHistory question : String) :
    formatTemplate (selectTemplate .ScenarioMode) context chatHistory question
      ≠ formatTemplate (selectTemplate .QuestionMode) context chatHistory question := by
  intro hEq
  have hS : formatTemplate (selectTemplate .ScenarioMode) context chatHistory question
      = .ok (scenarioInstructions ++ (context ++ (chatHistoryLabel ++ (chatHistory ++
          (scenarioLabel ++ (question ++ (answerLabel ++ ""))))))) := rfl
  have hQ : formatTemplate (selectTemplate .QuestionMode) context chatHistory question
      = .ok (qaInstructions ++ (context ++ (chatHistoryLabel ++ (chatHistory ++
          (questionLabel ++ (question ++ (answerLabel ++ ""))))))) := rfl
  rw [hS, hQ] at hEq
  simp only [Except.ok.injEq] at hEq
  have hlen := congrArg String.length hEq
  simp only [String.length_append] at hlen
  have hne : scenarioInstructions.length + scenarioLabel.length
      ≠ qaInstructions.length + questionLabel.length := by decide
  omega

/-- C7 as stated is false: the specific error is not kept for logging
only - the source renders `st.error(f"Error generating response: {e}")`,
so on this concrete failing turn the raw error text appears verbatim in a
page element visible to the end user (while the chat answer is the
fallback apology). -/
theorem error_text_rendered_to_user_counterexample :
    (processTurn retrievalDownCollaborators emptyChatState .QuestionMode "hi").errorBanner
        = some "Error generating response: RetrievalUnavailable: could not query index" ∧
    "Error generating response: RetrievalUnavailable: could not query index"
        ∈ userVisibleTexts
            (processTurn retrievalDownCollaborators emptyChatState .QuestionMode "hi") ∧
    (processTurn retrievalDownCollaborators emptyChatState .QuestionMode "hi").answer
        = fallbackAnswer := by
  refine ⟨rfl, ?_, rfl⟩
  have hb : (processTurn retrievalDownCollaborators emptyChatState .QuestionMode "hi").errorBanner
      = some "Error generating response: RetrievalUnavailable: could not query index" := rfl
  unfold userVisibleTexts
  rw [hb]
  simp

/-- C7 amended: for every failing turn the error kind is preserved at the
orchestrator boundary and every failure kind is converted into the single
safe fallback Answer, but the specific error is not confined to
logs/metrics: its text is rendered verbatim in the user-visible `st.error`
banner on the page. -/
theorem error_kind_preserved_but_banner_shown (c : Collaborators) (s : ChatState)
    (mode : Mode) (prompt : String) (e : TurnError)
    (h : chainInvoke c (selectTemplate mode) s.memory prompt = .error e) :
    (processTurn c s mode prompt).answer = fallbackAnswer ∧
    (processTurn c s mode prompt).caughtError = some e ∧
    (processTurn c s mode prompt).errorBanner
        = some ("Error generating response: " ++ e.message) ∧
    ("Error generating response: " ++ e.message)
        ∈ userVisibleTexts (processTurn c s mode prompt) := by
  simp [processTurn, h, userVisibleTexts]

/-- Witness for the amended C7: a generation transport failure produces
the apology answer, keeps the `GenerationUnavailable` error at the
boundary, and renders its text in the user-visible banner. -/
theorem error_kind_preserved_but_banner_shown_witness :
    (processTurn generationDownCollaborators emptyChatState .QuestionMode "hi").answer
        = fallbackAnswer ∧
    (processTurn generationDownCollaborators emptyChatState .QuestionMode "hi").caughtError
        = some ⟨.GenerationUnavailable, "GenerationUnavailable: transport failure"⟩ ∧
    (processTurn generationDownCollaborators emptyChatState .QuestionMode "hi").errorBanner
        = some ("Error generating response: " ++ "GenerationUnavailable: transport failure") ∧
    ("Error generating response: " ++ "GenerationUnavailable: transport failure")
        ∈ userVisibleTexts
            (processTurn generationDownCollaborators emptyChatState .QuestionMode "hi") :=
  error_kind_preserved_but_banner_shown generationDownCollaborators emptyChatState
    .QuestionMode "hi" ⟨.GenerationUnavailable, "GenerationUnavailable: transport failure"⟩ rfl

end Lawontip
